import Mathlib

/-!
Verification of the data-preparation pipeline of the heart-disease
analysis report (`main.py`).

The script is a straight-line program over one pandas DataFrame:
it loads `heart.csv` (guarded by `os.path.exists`, twice), computes
value counts of `target` and `sex`, recodes the `sex`/`target`/`fbs`
columns from 0/1 integer codes to label strings via `Series.map`,
computes joint counts of disease by gender, descriptive statistics via
`describe(include='all')`, and selects `[['trestbps','sex']].dropna()`
for a density plot.

The embedding below models:
  * a cell value (`Val`) as an integer code, a label string, or the
    missing marker `na` (pandas NaN);
  * a DataFrame (`Table`) as an association list of named columns;
  * `Series.map` with an integer-keyed dictionary (`mapDict`): a key
    absent from the dictionary (including any string key) yields `na`;
  * the pandas dtype test `s.dtype in [int, float]` used by the guards
    at lines 189/191/211 (`isNumericDtype`): true exactly when no cell
    is a string;
  * `value_counts` (`na` entries are dropped) and indexing a counts
    series at a key (`lookupCount`), which raises `KeyError` when the
    key is absent;
  * the whole script run (`runProgram`) as a sequence of steps over a
    program state holding the `data` variable (absent before a
    successful load, as in Python, where referencing it then raises
    `NameError`), the rendered outputs, and the number of file reads.
-/

/-- A pandas cell value: an integer code, a label string, or NaN. -/
inductive Val where
  | int (n : Int)
  | str (s : String)
  | na
deriving Repr, DecidableEq

/-- Is this cell the missing marker? -/
def Val.isNa : Val → Bool
  | .na => true
  | _ => false

/-- A DataFrame: named columns, in order. -/
structure Table where
  cols : List (String × List Val)
deriving Repr, DecidableEq

/-- First column with the given name (pandas `data[name]`); `[]` if absent. -/
def lookupCol : List (String × List Val) → String → List Val
  | [], _ => []
  | p :: ps, n => if p.1 = n then p.2 else lookupCol ps n

/-- Replace the first column with the given name, or append it
(pandas `data[name] = col`). -/
def updateCol : List (String × List Val) → String → List Val → List (String × List Val)
  | [], n, c => [(n, c)]
  | p :: ps, n, c => if p.1 = n then (n, c) :: ps else p :: updateCol ps n c

/-- `data[name]`. -/
def getCol (t : Table) (n : String) : List Val :=
  lookupCol t.cols n

/-- `data[name] = c`. -/
def setCol (t : Table) (n : String) (c : List Val) : Table :=
  ⟨updateCol t.cols n c⟩

/-- Number of rows (`data.shape[0]`): length of the first column. -/
def rowCount (t : Table) : Nat :=
  match t.cols with
  | [] => 0
  | c :: _ => c.2.length

/-- How often a (non-NaN) value occurs in a column. -/
def countVal (col : List Val) (v : Val) : Nat :=
  (col.filter (fun w => decide (w = v))).length

/-- `Series.map` with an integer-keyed dictionary: integer keys are
looked up (absent keys give NaN); string and NaN cells are never
dictionary keys and give NaN. -/
def mapDict (d : Int → Option String) (col : List Val) : List Val :=
  col.map (fun v =>
    match v with
    | .int n =>
      match d n with
      | some s => .str s
      | none => .na
    | .str _ => .na
    | .na => .na)

/-- The dictionary `{0: 'Female', 1: 'Male'}` (lines 117 and 212). -/
def sexMap (n : Int) : Option String :=
  if n = 0 then some "Female" else if n = 1 then some "Male" else none

/-- The dictionary `{0: 'No Disease', 1: 'Disease'}` (lines 118 and 192). -/
def targetMap (n : Int) : Option String :=
  if n = 0 then some "No Disease" else if n = 1 then some "Disease" else none

/-- The dictionary `{0: '≤ 120 mg/dL', 1: '> 120 mg/dL'}` (line 190). -/
def fbsMap (n : Int) : Option String :=
  if n = 0 then some "≤ 120 mg/dL" else if n = 1 then some "> 120 mg/dL" else none

/-- The guard `s.dtype in [int, float]`: a column holds a numeric dtype
exactly when no cell is a string (an int column possibly with NaN is
int64/float64; any string cell makes it object). -/
def isNumericDtype (col : List Val) : Bool :=
  col.all (fun v =>
    match v with
    | .str _ => false
    | _ => true)

/-- Lines 117-118: the unguarded recode
`data['sex'] = data['sex'].map({0:'Female',1:'Male'})` followed by
`data['target'] = data['target'].map({0:'No Disease',1:'Disease'})`. -/
def recodeSexTarget (t : Table) : Table :=
  let t1 := setCol t "sex" (mapDict sexMap (getCol t "sex"))
  setCol t1 "target" (mapDict targetMap (getCol t1 "target"))

/-- Lines 189-190: `if data['fbs'].dtype in [int, float]: data['fbs'] =
data['fbs'].map(...)`. -/
def recodeFbsGuarded (t : Table) : Table :=
  if isNumericDtype (getCol t "fbs")
  then setCol t "fbs" (mapDict fbsMap (getCol t "fbs"))
  else t

/-- Lines 191-192: `if data['target'].dtype in [int, float]:
data['target'] = data['target'].map(...)`. -/
def recodeTargetGuarded (t : Table) : Table :=
  if isNumericDtype (getCol t "target")
  then setCol t "target" (mapDict targetMap (getCol t "target"))
  else t

/-- Lines 189-192: the dtype-guarded recode of `fbs` and then `target`. -/
def recodeFbsTargetGuarded (t : Table) : Table :=
  recodeTargetGuarded (recodeFbsGuarded t)

/-- Lines 211-212: the dtype-guarded recode of `sex`. -/
def recodeSexGuarded (t : Table) : Table :=
  if isNumericDtype (getCol t "sex")
  then setCol t "sex" (mapDict sexMap (getCol t "sex"))
  else t

/-- `Series.value_counts()`: distinct non-NaN values with their counts. -/
def value_counts (col : List Val) : List (Val × Nat) :=
  ((col.filter (fun v => !v.isNa)).dedup).map (fun v => (v, countVal col v))

/-- The two errors the script can raise in the modelled steps:
`NameError` (the `data` variable was never bound because the file was
missing) and `KeyError` (indexing a counts series at an absent key, or
pandas lookup failure). -/
inductive Err where
  | nameError
  | keyError
deriving Repr, DecidableEq

/-- Indexing a value-counts series at a key (`counts[k]`): `KeyError`
when the key does not occur. -/
def lookupCount (col : List Val) (v : Val) : Except Err Nat :=
  if countVal col v = 0 then Except.error Err.keyError else Except.ok (countVal col v)

/-- Lines 86-88: `counts = data['target'].value_counts()` then
`counts[0]` and `counts[1]`, unconditionally. -/
def targetCountsOf (t : Table) : Except Err (Nat × Nat) :=
  match lookupCount (getCol t "target") (Val.int 0) with
  | Except.error e => Except.error e
  | Except.ok c0 =>
    match lookupCount (getCol t "target") (Val.int 1) with
    | Except.error e => Except.error e
    | Except.ok c1 => Except.ok (c0, c1)

/-- Lines 102-104: `gender_counts = data['sex'].value_counts()` then
`gender_counts[0]` and `gender_counts[1]`, unconditionally. -/
def genderCountsOf (t : Table) : Except Err (Nat × Nat) :=
  match lookupCount (getCol t "sex") (Val.int 0) with
  | Except.error e => Except.error e
  | Except.ok c0 =>
    match lookupCount (getCol t "sex") (Val.int 1) with
    | Except.error e => Except.error e
    | Except.ok c1 => Except.ok (c0, c1)

/-- Line 130: `data[data['target'] == 'Disease']['sex'].value_counts()`. -/
def gender_disease_counts (t : Table) : List (Val × Nat) :=
  value_counts
    ((((getCol t "target").zip (getCol t "sex")).filter
        (fun p => decide (p.1 = Val.str "Disease"))).map Prod.snd)

/-- Line 215: `plot_data = data[['trestbps', 'sex']].dropna()`. -/
def plot_data (t : Table) : List (Val × Val) :=
  ((getCol t "trestbps").zip (getCol t "sex")).filter
    (fun p => !p.1.isNa && !p.2.isNa)

/-- A small well-formed instance of the dataset (both codes occur in
`sex` and in `target`). -/
def tSample : Table :=
  ⟨[("age", [Val.int 52, Val.int 61, Val.int 45, Val.int 67]),
    ("sex", [Val.int 0, Val.int 1, Val.int 1, Val.int 0]),
    ("cp", [Val.int 0, Val.int 2, Val.int 1, Val.int 3]),
    ("trestbps", [Val.int 120, Val.int 140, Val.int 130, Val.int 110]),
    ("chol", [Val.int 212, Val.int 203, Val.int 174, Val.int 294]),
    ("fbs", [Val.int 0, Val.int 1, Val.int 0, Val.int 0]),
    ("target", [Val.int 1, Val.int 0, Val.int 1, Val.int 1])]⟩

/-- A table with codes outside {0,1} and a missing `trestbps` cell. -/
def tDirty : Table :=
  ⟨[("sex", [Val.int 2, Val.int 1]),
    ("fbs", [Val.int 2, Val.int 0]),
    ("trestbps", [Val.na, Val.int 125]),
    ("target", [Val.int 2, Val.int 0])]⟩

example : recodeSexTarget ⟨[("sex", [Val.int 0]), ("target", [Val.int 1])]⟩ =
    ⟨[("sex", [Val.str "Female"]), ("target", [Val.str "Disease"])]⟩ := by decide

example :
    recodeSexTarget (recodeSexTarget ⟨[("sex", [Val.int 0]), ("target", [Val.int 1])]⟩) =
    ⟨[("sex", [Val.na]), ("target", [Val.na])]⟩ := by decide

deriving instance DecidableEq for Except

/-- The statistics `describe` reports for one column. pandas computes
`count` for every column; `unique` (and `top`/`freq`) only for
non-numeric columns; `mean`/`min`/`max` (and the other moments) only
for numeric columns, skipping NaN cells. -/
structure ColStats where
  count : Nat
  unique : Option Nat
  mean : Option Rat
  min : Option Int
  max : Option Int
deriving Repr, DecidableEq

/-- The integer cells of a column (NaN cells are skipped, as pandas
statistics do). -/
def intCells (col : List Val) : List Int :=
  col.filterMap (fun v =>
    match v with
    | .int n => some n
    | _ => none)

/-- Mean of the integer cells, as an exact rational. -/
def meanOf (col : List Val) : Option Rat :=
  let xs := intCells col
  if xs.length = 0 then none else some ((xs.sum : Rat) / (xs.length : Rat))

/-- The statistics of one column. -/
def colStats (col : List Val) : ColStats :=
  { count := (col.filter (fun v => !v.isNa)).length
    unique := if isNumericDtype col then none else some (value_counts col).length
    mean := if isNumericDtype col then meanOf col else none
    min := if isNumericDtype col then (intCells col).min? else none
    max := if isNumericDtype col then (intCells col).max? else none }

/-- Lines 74-75: `data.describe(include='all')`. With `include='all'`
every column is described; with the pandas default (`includeAll =
false`) only numeric-dtype columns are. -/
def describe (includeAll : Bool) (t : Table) : List (String × ColStats) :=
  (if includeAll then t.cols else t.cols.filter (fun p => isNumericDtype p.2)).map
    (fun p => (p.1, colStats p.2))

/-- One rendered artifact of the page. -/
inductive Out where
  | text (s : String)
  | errorBox (s : String)
  | stats (d : List (String × ColStats))
  | counts (c : List (Val × Nat))
  | rows (r : List (Val × Val))
  | chart
deriving Repr, DecidableEq

/-- The state of the running script: the `data` variable (unbound
before a successful load, as in Python), the artifacts rendered so
far, and how many times the CSV file has been read. -/
structure PState where
  data : Option Table
  outputs : List Out
  reads : Nat
deriving Repr, DecidableEq

/-- The state at the top of the script. -/
def initState : PState :=
  { data := none, outputs := [], reads := 0 }

/-- Lines 47-68: the first `os.path.exists` block. When the file is
present it is read (`pd.read_csv`) and the preview is rendered;
otherwise `st.error` renders the notice and `data` stays unbound. -/
def loadBlock1 (env : Option Table) (s : PState) : PState :=
  match env with
  | some t =>
    { s with
      data := some t
      reads := s.reads + 1
      outputs := s.outputs ++
        [Out.text "Dataset Preview",
         Out.text ("Rows: " ++ toString (rowCount t) ++ ", Columns: " ++
           toString t.cols.length)] }
  | none =>
    { s with outputs := s.outputs ++ [Out.errorBox "CSV file not found. Please check the path."] }

/-- Lines 71-72: the second `os.path.exists` block re-reads the file
(no `else` branch). -/
def loadBlock2 (env : Option Table) (s : PState) : PState :=
  match env with
  | some t => { s with data := some t, reads := s.reads + 1 }
  | none => s

/-- Lines 74-75: render `data.describe(include='all')` (this happens
inside the second guarded block, hence only when `data` is bound). -/
def describePart (s : PState) : PState :=
  match s.data with
  | some t => { s with outputs := s.outputs ++ [Out.stats (describe true t)] }
  | none => s

/-- Lines 86-97: render the target counts and the bar chart
(`NameError` if `data` is unbound, `KeyError` if a code is absent). -/
def targetCountsStep (s : PState) : Except Err PState :=
  match s.data with
  | none => Except.error Err.nameError
  | some t =>
    match targetCountsOf t with
    | Except.error e => Except.error e
    | Except.ok (c0, c1) =>
      Except.ok { s with outputs := s.outputs ++
        [Out.text ("People without heart disease: " ++ toString c0),
         Out.text ("People with heart disease: " ++ toString c1),
         Out.chart] }

/-- Lines 102-112: render the gender counts and the count plot. -/
def genderCountsStep (s : PState) : Except Err PState :=
  match s.data with
  | none => Except.error Err.nameError
  | some t =>
    match genderCountsOf t with
    | Except.error e => Except.error e
    | Except.ok (c0, c1) =>
      Except.ok { s with outputs := s.outputs ++
        [Out.text ("Female: " ++ toString c0),
         Out.text ("Male: " ++ toString c1),
         Out.chart] }

/-- Lines 117-118: the unguarded in-place recode of `sex` and `target`. -/
def recodeStep117 (s : PState) : Except Err PState :=
  match s.data with
  | none => Except.error Err.nameError
  | some t => Except.ok { s with data := some (recodeSexTarget t) }

/-- Lines 129-131: render the disease counts by gender. -/
def genderDiseaseStep (s : PState) : Except Err PState :=
  match s.data with
  | none => Except.error Err.nameError
  | some t => Except.ok { s with outputs := s.outputs ++ [Out.counts (gender_disease_counts t)] }

/-- Lines 189-192: the dtype-guarded recode of `fbs` and `target`. -/
def recodeFbsTargetStep (s : PState) : Except Err PState :=
  match s.data with
  | none => Except.error Err.nameError
  | some t => Except.ok { s with data := some (recodeFbsTargetGuarded t) }

/-- Lines 211-212: the dtype-guarded recode of `sex`. -/
def recodeSexGuardStep (s : PState) : Except Err PState :=
  match s.data with
  | none => Except.error Err.nameError
  | some t => Except.ok { s with data := some (recodeSexGuarded t) }

/-- Lines 214-226: build `plot_data` and render the density plot. -/
def plotDataStep (s : PState) : Except Err PState :=
  match s.data with
  | none => Except.error Err.nameError
  | some t => Except.ok { s with outputs := s.outputs ++ [Out.rows (plot_data t), Out.chart] }

/-- Run one step unless an unhandled exception has already been
raised; an exception freezes the state reached so far (the page keeps
what was rendered before the crash). -/
def runS (p : PState × Option Err) (f : PState → Except Err PState) : PState × Option Err :=
  match p.2 with
  | some _ => p
  | none =>
    match f p.1 with
    | Except.ok s' => (s', none)
    | Except.error e => (p.1, some e)

/-- The whole script, top to bottom, on an environment where the CSV
file either is absent (`none`) or holds the given table. -/
def runProgram (env : Option Table) : PState × Option Err :=
  runS (runS (runS (runS (runS (runS (runS
    (describePart (loadBlock2 env (loadBlock1 env initState)), none)
    targetCountsStep) genderCountsStep) recodeStep117) genderDiseaseStep)
    recodeFbsTargetStep) recodeSexGuardStep) plotDataStep

example : genderCountsOf ⟨[("sex", [Val.int 0, Val.int 0])]⟩ = Except.error Err.keyError := by
  decide

example : (runProgram none).2 = some Err.nameError := by decide

example : (runProgram (some tSample)).1.reads = 2 := by decide

example : (runProgram (some tSample)).2 = none := by decide

/-! ## Column lookup and update -/

theorem lookupCol_updateCol_self (l : List (String × List Val)) (n : String) (c : List Val) :
    lookupCol (updateCol l n c) n = c := by
  induction l with
  | nil => simp [lookupCol, updateCol]
  | cons p ps ih =>
    by_cases h : p.1 = n
    · simp [lookupCol, updateCol, h]
    · simp [lookupCol, updateCol, h, ih]

theorem lookupCol_updateCol_ne (l : List (String × List Val)) (n m : String) (c : List Val)
    (h : n ≠ m) : lookupCol (updateCol l n c) m = lookupCol l m := by
  induction l with
  | nil => simp [lookupCol, updateCol, h]
  | cons p ps ih =>
    by_cases hp : p.1 = n
    · simp [lookupCol, updateCol, hp, h]
    · by_cases hm : p.1 = m
      · simp [lookupCol, updateCol, hp, hm, Ne.symm h]
      · simp [lookupCol, updateCol, hp, hm, ih]

theorem getCol_setCol_self (t : Table) (n : String) (c : List Val) :
    getCol (setCol t n c) n = c :=
  lookupCol_updateCol_self t.cols n c

theorem getCol_setCol_ne (t : Table) (n m : String) (c : List Val) (h : n ≠ m) :
    getCol (setCol t n c) m = getCol t m :=
  lookupCol_updateCol_ne t.cols n m c h

theorem getCol_recodeSexTarget_sex (t : Table) :
    getCol (recodeSexTarget t) "sex" = mapDict sexMap (getCol t "sex") := by
  unfold recodeSexTarget
  rw [getCol_setCol_ne _ _ _ _ (by decide), getCol_setCol_self]

theorem getCol_recodeSexTarget_target (t : Table) :
    getCol (recodeSexTarget t) "target" = mapDict targetMap (getCol t "target") := by
  unfold recodeSexTarget
  rw [getCol_setCol_self, getCol_setCol_ne _ _ _ _ (by decide)]

/-! ## Counting through the recode dictionaries -/

theorem countVal_cons (a : Val) (l : List Val) (v : Val) :
    countVal (a :: l) v = countVal l v + (if a = v then 1 else 0) := by
  by_cases h : a = v <;> simp [countVal, List.filter_cons, h]

theorem mapDict_mem_01 (d : Int → Option String) (s0 s1 : String)
    (hd0 : d 0 = some s0) (hd1 : d 1 = some s1) (col : List Val)
    (h : ∀ v ∈ col, v = Val.int 0 ∨ v = Val.int 1) :
    ∀ w ∈ mapDict d col, w = Val.str s0 ∨ w = Val.str s1 := by
  induction col with
  | nil => simp [mapDict]
  | cons a as ih =>
    intro w hw
    simp only [mapDict, List.map_cons, List.mem_cons] at hw
    rcases hw with rfl | hw
    · rcases h a (by simp) with rfl | rfl
      · left; simp [hd0]
      · right; simp [hd1]
    · exact ih (fun v hv => h v (by simp [hv])) w (by simpa [mapDict] using hw)

theorem countVal_mapDict_01 (d : Int → Option String) (s0 s1 : String)
    (hd0 : d 0 = some s0) (hd1 : d 1 = some s1) (hne : s0 ≠ s1) (col : List Val)
    (h : ∀ v ∈ col, v = Val.int 0 ∨ v = Val.int 1) :
    countVal (mapDict d col) (Val.str s0) = countVal col (Val.int 0) ∧
    countVal (mapDict d col) (Val.str s1) = countVal col (Val.int 1) := by
  induction col with
  | nil => simp [mapDict, countVal]
  | cons a as ih =>
    have ih' := ih (fun v hv => h v (by simp [hv]))
    rcases h a (by simp) with rfl | rfl
    · have e : mapDict d (Val.int 0 :: as) = Val.str s0 :: mapDict d as := by
        simp [mapDict, hd0]
      refine ⟨?_, ?_⟩ <;> simp [e, countVal_cons, ih'.1, ih'.2, hne]
    · have e : mapDict d (Val.int 1 :: as) = Val.str s1 :: mapDict d as := by
        simp [mapDict, hd1]
      refine ⟨?_, ?_⟩ <;> simp [e, countVal_cons, ih'.1, ih'.2, Ne.symm hne]

theorem countVal_01_length (col : List Val)
    (h : ∀ v ∈ col, v = Val.int 0 ∨ v = Val.int 1) :
    countVal col (Val.int 0) + countVal col (Val.int 1) = col.length := by
  induction col with
  | nil => simp [countVal]
  | cons a as ih =>
    have ih' := ih (fun v hv => h v (by simp [hv]))
    rcases h a (by simp) with rfl | rfl <;> simp [countVal_cons] <;> omega

theorem mapDict_getElem?_na (d : Int → Option String) (col : List Val) (i : Nat) (k : Int)
    (hc : col[i]? = some (Val.int k)) (hd : d k = none) :
    (mapDict d col)[i]? = some Val.na := by
  simp [mapDict, List.getElem?_map, hc, hd]

theorem value_counts_not_na (col : List Val) :
    ∀ q ∈ value_counts col, q.1.isNa = false := by
  intro q hq
  simp only [value_counts, List.mem_map] at hq
  obtain ⟨v, hv, rfl⟩ := hq
  rw [List.mem_dedup] at hv
  have hf := (List.mem_filter.mp hv).2
  simpa using hf

/-! ## The run: reads accounting -/

theorem runS_reads (f : PState → Except Err PState)
    (hf : ∀ s s', f s = Except.ok s' → s'.reads = s.reads)
    (p : PState × Option Err) : (runS p f).1.reads = p.1.reads := by
  rcases p with ⟨s, e⟩
  cases e with
  | some e => rfl
  | none =>
    cases hfs : f s with
    | ok s' =>
      have hr : runS (s, none) f = (s', none) := by simp [runS, hfs]
      rw [hr]; exact hf s s' hfs
    | error e =>
      have hr : runS (s, none) f = (s, some e) := by simp [runS, hfs]
      rw [hr]

theorem targetCountsStep_reads (s s' : PState) (h : targetCountsStep s = Except.ok s') :
    s'.reads = s.reads := by
  unfold targetCountsStep at h
  split at h
  · simp at h
  · split at h
    · simp at h
    · injection h with h; subst h; rfl

theorem genderCountsStep_reads (s s' : PState) (h : genderCountsStep s = Except.ok s') :
    s'.reads = s.reads := by
  unfold genderCountsStep at h
  split at h
  · simp at h
  · split at h
    · simp at h
    · injection h with h; subst h; rfl

theorem recodeStep117_reads (s s' : PState) (h : recodeStep117 s = Except.ok s') :
    s'.reads = s.reads := by
  unfold recodeStep117 at h
  split at h
  · simp at h
  · injection h with h; subst h; rfl

theorem genderDiseaseStep_reads (s s' : PState) (h : genderDiseaseStep s = Except.ok s') :
    s'.reads = s.reads := by
  unfold genderDiseaseStep at h
  split at h
  · simp at h
  · injection h with h; subst h; rfl

theorem recodeFbsTargetStep_reads (s s' : PState) (h : recodeFbsTargetStep s = Except.ok s') :
    s'.reads = s.reads := by
  unfold recodeFbsTargetStep at h
  split at h
  · simp at h
  · injection h with h; subst h; rfl

theorem recodeSexGuardStep_reads (s s' : PState) (h : recodeSexGuardStep s = Except.ok s') :
    s'.reads = s.reads := by
  unfold recodeSexGuardStep at h
  split at h
  · simp at h
  · injection h with h; subst h; rfl

theorem plotDataStep_reads (s s' : PState) (h : plotDataStep s = Except.ok s') :
    s'.reads = s.reads := by
  unfold plotDataStep at h
  split at h
  · simp at h
  · injection h with h; subst h; rfl

/-! ## More recode projections -/

theorem getCol_recodeTargetGuarded_other (t : Table) (m : String) (hm : m ≠ "target") :
    getCol (recodeTargetGuarded t) m = getCol t m := by
  unfold recodeTargetGuarded
  split
  · exact getCol_setCol_ne _ _ _ _ (Ne.symm hm)
  · rfl

theorem getCol_recodeFbsGuarded_fbs (t : Table)
    (hg : isNumericDtype (getCol t "fbs") = true) :
    getCol (recodeFbsGuarded t) "fbs" = mapDict fbsMap (getCol t "fbs") := by
  unfold recodeFbsGuarded
  rw [if_pos hg, getCol_setCol_self]

theorem getCol_recodeFbsTargetGuarded_fbs (t : Table)
    (hg : isNumericDtype (getCol t "fbs") = true) :
    getCol (recodeFbsTargetGuarded t) "fbs" = mapDict fbsMap (getCol t "fbs") := by
  unfold recodeFbsTargetGuarded
  rw [getCol_recodeTargetGuarded_other _ _ (by decide), getCol_recodeFbsGuarded_fbs t hg]

/-! ## Data preservation of the summary steps -/

theorem targetCountsStep_data (s s' : PState) (h : targetCountsStep s = Except.ok s') :
    s'.data = s.data := by
  unfold targetCountsStep at h
  split at h
  · simp at h
  · split at h
    · simp at h
    · injection h with h; subst h; rfl

theorem genderCountsStep_data (s s' : PState) (h : genderCountsStep s = Except.ok s') :
    s'.data = s.data := by
  unfold genderCountsStep at h
  split at h
  · simp at h
  · split at h
    · simp at h
    · injection h with h; subst h; rfl

theorem genderDiseaseStep_data (s s' : PState) (h : genderDiseaseStep s = Except.ok s') :
    s'.data = s.data := by
  unfold genderDiseaseStep at h
  split at h
  · simp at h
  · injection h with h; subst h; rfl

theorem describePart_data (s : PState) : (describePart s).data = s.data := by
  unfold describePart
  split <;> rfl

/-! ## Claims -/

/-- Table used by the C2 evaluation: one row, numeric codes. -/
def tTiny : Table := ⟨[("sex", [Val.int 0]), ("target", [Val.int 1])]⟩

/-- Table used by the C4 evaluation: `sex` all zeros. -/
def tAllZeroSex : Table := ⟨[("sex", [Val.int 0, Val.int 0, Val.int 0])]⟩

/-- C1: with the dataset file missing, the run does render the
"file not found" error notice, but it does not stop there: the
unconditional target-counts step (line 86) then references the unbound
`data` variable and the run ends in an unhandled `NameError`. This
refutes "no later step fails on the absent table"; the partial page
holds exactly the outputs rendered before the crash. -/
theorem C1_missing_file_notice_then_crash :
    Out.errorBox "CSV file not found. Please check the path." ∈ (runProgram none).1.outputs ∧
    (runProgram none).2 = some Err.nameError ∧
    (runProgram none).1.data = none := by decide

/-- C2: the sex/target recode of lines 117-118 is not idempotent. On a
table with `sex = [0]`, `target = [1]`, one application yields the
labels; a second application maps the label strings through the
integer-keyed dictionaries, so every cell becomes the missing marker
and the label distribution changes (count of "Female" drops 1 → 0).
Only the later recodes (lines 189-192 and 211-212) carry the dtype
guard. -/
theorem C2_double_recode_corrupts :
    getCol (recodeSexTarget tTiny) "sex" = [Val.str "Female"] ∧
    getCol (recodeSexTarget tTiny) "target" = [Val.str "Disease"] ∧
    getCol (recodeSexTarget (recodeSexTarget tTiny)) "sex" = [Val.na] ∧
    getCol (recodeSexTarget (recodeSexTarget tTiny)) "target" = [Val.na] ∧
    countVal (getCol (recodeSexTarget (recodeSexTarget tTiny)) "sex") (Val.str "Female") ≠
      countVal (getCol (recodeSexTarget tTiny) "sex") (Val.str "Female") := by decide

/-- C4: on a table whose `sex` column is all zeros, the gender-count
display fails: `gender_counts[0]` succeeds (Female = 3) but value 1 is
absent from the counts, so `gender_counts[1]` raises `KeyError` — the
step does not show Male = 0. -/
theorem C4_all_zero_sex_keyerror :
    genderCountsOf tAllZeroSex = Except.error Err.keyError ∧
    lookupCount (getCol tAllZeroSex "sex") (Val.int 0) = Except.ok 3 ∧
    countVal (getCol tAllZeroSex "sex") (Val.int 1) = 0 := by decide

/-- C5 counterexample: on a run with the file present, the CSV is read
twice (lines 48 and 72), not exactly once. -/
theorem C5_single_read_counterexample :
    (runProgram (some tSample)).1.reads = 2 ∧
    ¬ (runProgram (some tSample)).1.reads = 1 := by decide

/-- C5 amended: when the file exists the CSV is read exactly twice per
process run — once in each of the two `os.path.exists` blocks — and no
step after the second load reads it again (the total stays 2 across
the whole run); with the file absent it is never read. -/
theorem C5_read_twice_then_in_memory (t : Table) :
    (runProgram (some t)).1.reads = 2 ∧ (runProgram none).1.reads = 0 := by
  constructor <;>
  · unfold runProgram
    rw [runS_reads plotDataStep plotDataStep_reads,
      runS_reads recodeSexGuardStep recodeSexGuardStep_reads,
      runS_reads recodeFbsTargetStep recodeFbsTargetStep_reads,
      runS_reads genderDiseaseStep genderDiseaseStep_reads,
      runS_reads recodeStep117 recodeStep117_reads,
      runS_reads genderCountsStep genderCountsStep_reads,
      runS_reads targetCountsStep targetCountsStep_reads]
    rfl

/-- C3: on a table whose `sex` and `target` columns hold only the
codes 0 and 1, one application of the lines 117-118 recode yields only
the labels {"Female","Male"} and {"No Disease","Disease"}, with each
label's count equal to the corresponding code's count before recoding,
and the two target label counts sum to the row count. -/
theorem C3_recode_once_counts (t : Table)
    (hs : ∀ v ∈ getCol t "sex", v = Val.int 0 ∨ v = Val.int 1)
    (ht : ∀ v ∈ getCol t "target", v = Val.int 0 ∨ v = Val.int 1) :
    (∀ w ∈ getCol (recodeSexTarget t) "sex", w = Val.str "Female" ∨ w = Val.str "Male") ∧
    (∀ w ∈ getCol (recodeSexTarget t) "target",
        w = Val.str "No Disease" ∨ w = Val.str "Disease") ∧
    countVal (getCol (recodeSexTarget t) "sex") (Val.str "Female") =
      countVal (getCol t "sex") (Val.int 0) ∧
    countVal (getCol (recodeSexTarget t) "sex") (Val.str "Male") =
      countVal (getCol t "sex") (Val.int 1) ∧
    countVal (getCol (recodeSexTarget t) "target") (Val.str "No Disease") =
      countVal (getCol t "target") (Val.int 0) ∧
    countVal (getCol (recodeSexTarget t) "target") (Val.str "Disease") =
      countVal (getCol t "target") (Val.int 1) ∧
    countVal (getCol (recodeSexTarget t) "target") (Val.str "No Disease") +
      countVal (getCol (recodeSexTarget t) "target") (Val.str "Disease") =
      (getCol t "target").length := by
  rw [getCol_recodeSexTarget_sex, getCol_recodeSexTarget_target]
  have hsex := countVal_mapDict_01 sexMap "Female" "Male" (by decide) (by decide)
    (by decide) _ hs
  have htgt := countVal_mapDict_01 targetMap "No Disease" "Disease" (by decide) (by decide)
    (by decide) _ ht
  refine ⟨mapDict_mem_01 sexMap "Female" "Male" (by decide) (by decide) _ hs,
    mapDict_mem_01 targetMap "No Disease" "Disease" (by decide) (by decide) _ ht,
    hsex.1, hsex.2, htgt.1, htgt.2, ?_⟩
  rw [htgt.1, htgt.2]
  exact countVal_01_length _ ht

/-- C3 witness: the conclusion evaluated on the concrete table
`tSample` (sex = [0,1,1,0], target = [1,0,1,1]). -/
theorem C3_recode_once_counts_witness :
    ((∀ v ∈ getCol tSample "sex", v = Val.int 0 ∨ v = Val.int 1) ∧
     (∀ v ∈ getCol tSample "target", v = Val.int 0 ∨ v = Val.int 1)) ∧
    ((∀ w ∈ getCol (recodeSexTarget tSample) "sex",
        w = Val.str "Female" ∨ w = Val.str "Male") ∧
     (∀ w ∈ getCol (recodeSexTarget tSample) "target",
        w = Val.str "No Disease" ∨ w = Val.str "Disease") ∧
     countVal (getCol (recodeSexTarget tSample) "sex") (Val.str "Female") =
       countVal (getCol tSample "sex") (Val.int 0) ∧
     countVal (getCol (recodeSexTarget tSample) "sex") (Val.str "Male") =
       countVal (getCol tSample "sex") (Val.int 1) ∧
     countVal (getCol (recodeSexTarget tSample) "target") (Val.str "No Disease") =
       countVal (getCol tSample "target") (Val.int 0) ∧
     countVal (getCol (recodeSexTarget tSample) "target") (Val.str "Disease") =
       countVal (getCol tSample "target") (Val.int 1) ∧
     countVal (getCol (recodeSexTarget tSample) "target") (Val.str "No Disease") +
       countVal (getCol (recodeSexTarget tSample) "target") (Val.str "Disease") =
       (getCol tSample "target").length) :=
  ⟨⟨by decide, by decide⟩, C3_recode_once_counts tSample (by decide) (by decide)⟩

/-- C6: a code outside {0,1} in `sex`, `target` (lines 117-118) or in
a numeric-dtype `fbs` column (lines 189-190) recodes to the missing
marker at that row; the recode step itself raises nothing (it returns
normally for any bound table), and `value_counts` silently drops the
missing entries, so no label ever reports the bad rows. -/
theorem C6_out_of_domain_silent_na (t : Table) (i : Nat) (k : Int)
    (hk0 : k ≠ 0) (hk1 : k ≠ 1) :
    ((getCol t "sex")[i]? = some (Val.int k) →
      (getCol (recodeSexTarget t) "sex")[i]? = some Val.na) ∧
    ((getCol t "target")[i]? = some (Val.int k) →
      (getCol (recodeSexTarget t) "target")[i]? = some Val.na) ∧
    (isNumericDtype (getCol t "fbs") = true →
      (getCol t "fbs")[i]? = some (Val.int k) →
      (getCol (recodeFbsTargetGuarded t) "fbs")[i]? = some Val.na) ∧
    (∀ s : PState, s.data = some t →
      recodeStep117 s = Except.ok { s with data := some (recodeSexTarget t) }) ∧
    (∀ q ∈ value_counts (getCol (recodeSexTarget t) "sex"), q.1.isNa = false) := by
  refine ⟨?_, ?_, ?_, ?_, value_counts_not_na _⟩
  · intro h
    rw [getCol_recodeSexTarget_sex]
    exact mapDict_getElem?_na _ _ _ _ h (by simp [sexMap, hk0, hk1])
  · intro h
    rw [getCol_recodeSexTarget_target]
    exact mapDict_getElem?_na _ _ _ _ h (by simp [targetMap, hk0, hk1])
  · intro hg h
    rw [getCol_recodeFbsTargetGuarded_fbs t hg]
    exact mapDict_getElem?_na _ _ _ _ h (by simp [fbsMap, hk0, hk1])
  · intro s hsd
    simp [recodeStep117, hsd]

/-- C6 witness: the conclusion evaluated on `tDirty`, whose first row
holds the out-of-range code 2 in `sex`, `target` and `fbs`. -/
theorem C6_out_of_domain_silent_na_witness :
    (((2 : Int) ≠ 0) ∧ ((2 : Int) ≠ 1)) ∧
    ((getCol (recodeSexTarget tDirty) "sex")[0]? = some Val.na ∧
     (getCol (recodeSexTarget tDirty) "target")[0]? = some Val.na ∧
     (getCol (recodeFbsTargetGuarded tDirty) "fbs")[0]? = some Val.na) :=
  ⟨⟨by decide, by decide⟩,
   ⟨(C6_out_of_domain_silent_na tDirty 0 2 (by decide) (by decide)).1 (by decide),
    (C6_out_of_domain_silent_na tDirty 0 2 (by decide) (by decide)).2.1 (by decide),
    (C6_out_of_domain_silent_na tDirty 0 2 (by decide) (by decide)).2.2.1 (by decide)
      (by decide)⟩⟩

/-- C7: the summary computations are read-only projections: a
successful target-counts step, gender-counts step, or
disease-by-gender step leaves the `data` table (hence every column)
exactly as it was, and rendering the descriptive statistics does too. -/
theorem C7_summaries_pure (s s1 s2 s3 : PState)
    (h1 : targetCountsStep s = Except.ok s1)
    (h2 : genderCountsStep s = Except.ok s2)
    (h3 : genderDiseaseStep s = Except.ok s3) :
    s1.data = s.data ∧ s2.data = s.data ∧ s3.data = s.data ∧
    (describePart s).data = s.data :=
  ⟨targetCountsStep_data s s1 h1, genderCountsStep_data s s2 h2,
   genderDiseaseStep_data s s3 h3, describePart_data s⟩

/-- The result of a step known to succeed (used to name the
post-states of the C7 witness). -/
def okOr (r : Except Err PState) (dflt : PState) : PState :=
  match r with
  | Except.ok s => s
  | Except.error _ => dflt

/-- The concrete pre-state of the C7 witness. -/
def stW : PState := { data := some tSample, outputs := [], reads := 0 }

/-- Post-state of the target-counts step on `stW`. -/
def stW1 : PState := okOr (targetCountsStep stW) stW

/-- Post-state of the gender-counts step on `stW`. -/
def stW2 : PState := okOr (genderCountsStep stW) stW

/-- Post-state of the disease-by-gender step on `stW`. -/
def stW3 : PState := okOr (genderDiseaseStep stW) stW

/-- C7 witness: the three summary steps succeed on the concrete state
`stW` and leave its table untouched. -/
theorem C7_summaries_pure_witness :
    (targetCountsStep stW = Except.ok stW1 ∧
     genderCountsStep stW = Except.ok stW2 ∧
     genderDiseaseStep stW = Except.ok stW3) ∧
    (stW1.data = stW.data ∧ stW2.data = stW.data ∧ stW3.data = stW.data ∧
     (describePart stW).data = stW.data) :=
  ⟨⟨by decide, by decide, by decide⟩,
   C7_summaries_pure stW stW1 stW2 stW3 (by decide) (by decide) (by decide)⟩

/-- C8: `describe(include='all')` describes every column: its output
has exactly one column per input column, with the same names in the
same order (and one row per computed statistic, the fields of
`ColStats`). -/
theorem C8_describe_shape (t : Table) :
    (describe true t).map Prod.fst = t.cols.map Prod.fst ∧
    (describe true t).length = t.cols.length := by
  unfold describe
  simp

/-- Did the computation succeed (no exception)? -/
def exceptOk {α : Type} (r : Except Err α) : Bool :=
  match r with
  | Except.ok _ => true
  | Except.error _ => false

/-- C9: the target value-count display (`counts[0]` / `counts[1]`,
lines 86-88) succeeds exactly when both codes 0 and 1 occur in the
pre-recoding `target` column; whenever it fails, the failure is a
`KeyError`. -/
theorem C9_target_counts_lookup (t : Table) :
    (exceptOk (targetCountsOf t) = true ↔
      (0 < countVal (getCol t "target") (Val.int 0) ∧
       0 < countVal (getCol t "target") (Val.int 1))) ∧
    (exceptOk (targetCountsOf t) = true ∨
      targetCountsOf t = Except.error Err.keyError) := by
  unfold targetCountsOf lookupCount
  by_cases h0 : countVal (getCol t "target") (Val.int 0) = 0 <;>
    by_cases h1 : countVal (getCol t "target") (Val.int 1) = 0 <;>
      simp [h0, h1, exceptOk]
  all_goals omega

/-- C9 witness: on `tSample` both codes occur, so the step succeeds. -/
theorem C9_target_counts_lookup_witness :
    exceptOk (targetCountsOf tSample) = true :=
  (C9_target_counts_lookup tSample).1.mpr ⟨by decide, by decide⟩

/-- C10: `plot_data` (line 215) holds exactly the rows of the
trestbps/sex selection in which neither value is missing: any row with
a missing `trestbps` or `sex` (in particular a missing marker produced
by recoding an out-of-range sex code) is dropped before the density
plot. -/
theorem C10_plot_data_no_missing (t : Table) (p : Val × Val) :
    p ∈ plot_data t ↔
      (p ∈ (getCol t "trestbps").zip (getCol t "sex") ∧
        p.1.isNa = false ∧ p.2.isNa = false) := by
  simp [plot_data, List.mem_filter]

/-- C10 witness: on `tDirty` (first `trestbps` cell missing) only the
complete second row survives into `plot_data`. -/
theorem C10_plot_data_no_missing_witness :
    (Val.int 125, Val.int 1) ∈ plot_data tDirty ∧
    plot_data tDirty = [(Val.int 125, Val.int 1)] :=
  ⟨(C10_plot_data_no_missing tDirty (Val.int 125, Val.int 1)).mpr
      ⟨by decide, by decide, by decide⟩,
   by decide⟩
